import Mathlib

/-!
Shallow embedding of the on-device Human Activity Recognition (HAR) engine
(`HARModelService` and the module-level publisher state in the source file
`harModelService` of the Nyra repository).

Modelling conventions:
* JS numbers are modelled by `ℚ` (exact arithmetic). `Math.sqrt` is modelled
  by `Rat.sqrt`, which agrees with the real square root whenever the result
  is rational; concrete inputs used in theorems are chosen so that every
  square root taken is exact.
* A JS value that is missing or non-finite (`NaN`/`Infinity`) in a sensor
  field is modelled by `none : Option ℚ`; a finite number by `some q`.
  Inside `ℚ` every value is finite, so the source's redundant `isFinite`
  re-checks on already-validated rationals are identically true and the
  corresponding `isFinite(x) ? x : fallback` expressions collapse to `x`;
  this is noted at each site.
* JS division by zero yields `NaN`/`±Infinity`; in `ℚ`, `x / 0 = 0`.  Every
  division in the source is either guarded (`length > 0 ? … : 0`,
  `range > 0 ? … : 0`) or occurs where the guarded branch and the `ℚ`
  convention decide alike (noted at the one unguarded site, `movementDrop`).
* A JS exception thrown by a listener callback is modelled by
  `Except String Unit`.
* `Date.now()` is modelled by a `now : ℚ` parameter passed to each tick; the
  source reads the clock twice in one tick (lines 280 and 330), modelled as
  the same instant.
* The field `lastMovementLevel` is initialised in the constructor and never
  read or written afterwards; it is omitted from the state.
-/

namespace NyraHAR

/-- Activity labels published by the classifier (the `name` strings of the
source). -/
inductive Activity
  | IDLE
  | STANDING
  | WALKING
  | RUNNING
  | CALIBRATING
deriving DecidableEq, Repr

/-- The anomaly record `{ type, severity }` published on a sudden stop. -/
structure Anomaly where
  type : String
  severity : String
deriving DecidableEq, Repr

/-- The only anomaly value the source ever constructs:
`{ type: 'SUDDEN_STOP', severity: 'HIGH' }`. -/
def suddenStop : Anomaly := { type := "SUDDEN_STOP", severity := "HIGH" }

/-- The published snapshot `latestActivityState`. -/
structure ActivityState where
  name : Activity
  confidence : ℚ
  isProtectionActive : Bool
  anomaly : Option Anomaly
deriving DecidableEq, Repr

/-- One raw sensor sample `{ ax, ay, az, gx, gy, gz }`; `none` models a
missing or non-finite field. -/
structure SensorData where
  ax : Option ℚ
  ay : Option ℚ
  az : Option ℚ
  gx : Option ℚ
  gy : Option ℚ
  gz : Option ℚ
deriving DecidableEq, Repr

/-- The per-field validation loop of `predictActivity` (lines 143-149):
every required field must be a finite number. -/
def SensorData.valid (d : SensorData) : Bool :=
  d.ax.isSome && d.ay.isSome && d.az.isSome && d.gx.isSome && d.gy.isSome && d.gz.isSome

/-- `_calculateMagnitude` (lines 104-112).  `isFinite(x) ? x : 0` on an
`Option ℚ` field is exactly `Option.getD · 0`; the final
`isFinite(magnitude) ? magnitude : 0` is the identity on `ℚ`. -/
def calculateMagnitude (x y z : Option ℚ) : ℚ :=
  let validX := x.getD 0
  let validY := y.getD 0
  let validZ := z.getD 0
  Rat.sqrt (validX * validX + validY * validY + validZ * validZ)

/-- `_calculateVariance` (lines 117-128).  The source first filters out
non-finite entries; on `ℚ` the filter keeps everything, so it is dropped.
The trailing `isFinite(variance) ? variance : 0` is the identity. -/
def calculateVariance (arr : List ℚ) : ℚ :=
  if arr.length < 2 then 0
  else
    let mean := arr.sum / arr.length
    (arr.map (fun b => (b - mean) ^ 2)).sum / arr.length

/-- `SENSOR_DATA_BUFFER_SIZE` (line 3). -/
def SENSOR_DATA_BUFFER_SIZE : ℕ := 25

/-- The four `BASE_MOVEMENT_THRESHOLD_*` constants (lines 6-9) bundled with
their sensitivity-adjusted versions. -/
structure Thresholds where
  idle : ℚ
  standing : ℚ
  walking : ℚ
  running : ℚ
deriving DecidableEq, Repr

/-- Threshold adjustment by sensitivity (lines 178-184). -/
def adjustedThresholds (sensitivity : ℚ) : Thresholds :=
  let modifier := 1 - sensitivity
  { idle := 0.5 * (1 + modifier * 0.6)
    standing := 2.0 * (1 + modifier * 0.6)
    walking := 8.0 * (1 + modifier * 0.4)
    running := 20.0 * (1 + modifier * 0.3) }

/-- Accelerometer magnitudes of the buffered samples (line 188). -/
def accelMagnitudes (buf : List SensorData) : List ℚ :=
  buf.map (fun d => calculateMagnitude d.ax d.ay d.az)

/-- Gyroscope magnitudes of the buffered samples (line 189). -/
def gyroMagnitudes (buf : List SensorData) : List ℚ :=
  buf.map (fun d => calculateMagnitude d.gx d.gy d.gz)

/-- Gravity removal (lines 192-195): subtract the window's mean accel
magnitude and take absolute values.  The `length > 0 ? sum/length : 0`
guard agrees with `ℚ`'s `sum / 0 = 0` on the empty list, and
`isFinite(meanAccel) ? meanAccel : 0` is the identity. -/
def accelWithoutGravity (buf : List SensorData) : List ℚ :=
  let mags := accelMagnitudes buf
  let meanAccel := mags.sum / mags.length
  mags.map (fun mag => |mag - meanAccel|)

/-- `accelVariance` (line 197); the `isFinite` re-check (line 201) is the
identity. -/
def accelVariance (buf : List SensorData) : ℚ :=
  calculateVariance (accelWithoutGravity buf)

/-- `gyroVariance` (line 198); the `isFinite` re-check (line 202) is the
identity. -/
def gyroVariance (buf : List SensorData) : ℚ :=
  calculateVariance (gyroMagnitudes buf)

/-- The weighted movement score (line 205):
`totalMovement = accelVariance * 15 + gyroVariance * 85`; the
`isFinite` re-check (line 208) is the identity. -/
def totalMovement (buf : List SensorData) : ℚ :=
  accelVariance buf * 15 + gyroVariance buf * 85

/-- The activity-classification cascade with per-bracket confidence
(lines 212-245).  All `isFinite(confidenceCalc) ? … : fallback` checks are
identities on `ℚ`. -/
def classifyConf (tm : ℚ) (θ : Thresholds) : Activity × ℚ :=
  if θ.running < tm then
    let excessMovement := tm - θ.running
    (Activity.RUNNING, min 0.95 (0.75 + excessMovement / θ.running * 0.2))
  else if θ.walking < tm then
    let walkingRange := θ.running - θ.walking
    let walkingProgress := if 0 < walkingRange then (tm - θ.walking) / walkingRange else 0
    (Activity.WALKING, min 0.92 (0.65 + walkingProgress * 0.27))
  else if θ.standing < tm then
    let standingRange := θ.walking - θ.standing
    let standingProgress := if 0 < standingRange then (tm - θ.standing) / standingRange else 0
    (Activity.STANDING, min 0.88 (0.55 + standingProgress * 0.33))
  else if θ.idle < tm then
    let lightRange := θ.standing - θ.idle
    let lightProgress := if 0 < lightRange then (tm - θ.idle) / lightRange else 0
    (Activity.STANDING, min 0.82 (0.45 + lightProgress * 0.37))
  else
    let idleFrac := if 0 < θ.idle then min 1.0 (tm / θ.idle) else 0
    (Activity.IDLE, max 0.7 (0.95 - idleFrac * 0.25))

/-- Result of the activity-smoothing block: the published activity and
confidence together with the updated `lastActivity` and
`activityChangeCount` fields. -/
structure SmoothResult where
  activity : Activity
  confidence : ℚ
  lastActivity : Activity
  changeCount : ℕ
deriving DecidableEq, Repr

/-- The "Improved Activity Smoothing" block (lines 247-269).  `last` and
`count` are the incoming `this.lastActivity` / `this.activityChangeCount`;
the comparison against the smoothing bounds uses the counter value after
the increment, exactly as the source does. -/
def smooth (last : Activity) (count : ℕ) (activity : Activity) (confidence : ℚ) :
    SmoothResult :=
  if activity ≠ last then
    let count' := count + 1
    let needsSmoothing :=
      (last == Activity.IDLE && activity == Activity.STANDING && count' < 3) ||
      (last == Activity.STANDING && activity == Activity.IDLE && count' < 3) ||
      (last == Activity.STANDING && activity == Activity.WALKING && count' < 2) ||
      (last == Activity.WALKING && activity == Activity.STANDING && count' < 2)
    if needsSmoothing then
      { activity := last, confidence := max 0.3 (confidence - 0.3)
        lastActivity := last, changeCount := count' }
    else
      { activity := activity, confidence := confidence
        lastActivity := activity, changeCount := 0 }
  else
    { activity := activity, confidence := confidence
      lastActivity := last, changeCount := 0 }

/-- The push-and-cap pattern used for both `sensorDataBuffer`
(lines 161-164, cap 25) and `movementHistory` (lines 273-276, cap 100):
append, then `shift()` when the length exceeds the cap. -/
def pushCapped (l : List α) (cap : ℕ) (x : α) : List α :=
  let l2 := l ++ [x]
  if cap < l2.length then l2.tail else l2

/-- The session-tracking counters mutated by lines 283-297. -/
structure SessionState where
  highMovementDuration : ℕ
  consecutiveStillReadings : ℕ
  walkingSessionActive : Bool
deriving DecidableEq, Repr

/-- Walking-session bookkeeping (lines 278-297), applied to the
post-smoothing activity of the current tick. -/
def updateSession (activity : Activity) (s : SessionState) : SessionState :=
  let isHighMovement := activity == Activity.WALKING || activity == Activity.RUNNING
  let isStill := activity == Activity.IDLE
  if isHighMovement then
    let hmd := s.highMovementDuration + 1
    { highMovementDuration := hmd
      consecutiveStillReadings := 0
      walkingSessionActive :=
        if !s.walkingSessionActive && 30 < hmd then true else s.walkingSessionActive }
  else if isStill then
    let csr := s.consecutiveStillReadings + 1
    if 30 < csr then
      { highMovementDuration := 0, consecutiveStillReadings := csr
        walkingSessionActive := false }
    else
      { s with consecutiveStillReadings := csr }
  else
    { s with consecutiveStillReadings := 0 }

/-- JS `list.slice(-a, -b)` for `0 ≤ b < a` (with `b = 0` standing for an
omitted end argument): the elements from index `length - a` (clamped at 0)
up to index `length - b` (clamped at 0). -/
def jsSliceNeg (l : List ℚ) (a b : ℕ) : List ℚ :=
  (l.take (l.length - b)).drop (l.length - a)

/-- Mean of a list; JS would produce `NaN` on an empty list, `ℚ` produces
`0 / 0 = 0`.  Every use below is on a slice the guard has proved nonempty. -/
def listAvg (l : List ℚ) : ℚ := l.sum / l.length

/-- The sudden-stop trigger guard (lines 300-325), evaluated on the
movement history after the current tick's push and on the session counters
after the current tick's update.  `timeSince` is
`Date.now() - this.lastSuddenStopTime`.  At `avgPrevious = 0` the JS
`movementDrop` is `NaN` (or `±Infinity` with sign making the comparison
false) and the guard's `avgPrevious > running * 0.8` clause is false as
well, so both JS and the `ℚ` convention reject; elsewhere the division is
by a nonzero value. -/
def suddenStopGuard (history : List ℚ) (walkingActive : Bool)
    (hmd : ℕ) (timeSince : ℚ) (θ : Thresholds) : Bool :=
  decide (50 ≤ history.length) && walkingActive && decide (50 ≤ hmd) &&
    decide ((30000 : ℚ) < timeSince) &&
  (let recentMovement := jsSliceNeg history 3 0
   let previousMovement := jsSliceNeg history 20 10
   let longTermMovement := jsSliceNeg history 50 20
   let avgRecent := listAvg recentMovement
   let avgPrevious := listAvg previousMovement
   let avgLongTerm := listAvg longTermMovement
   let movementDrop := (avgPrevious - avgRecent) / avgPrevious
   let consistentHighMovement :=
     decide (θ.walking * 1.5 < avgLongTerm) && decide (θ.walking * 1.5 < avgPrevious)
   decide ((0.9 : ℚ) < movementDrop) && consistentHighMovement &&
     decide (avgRecent < θ.idle * 2) && decide (θ.running * 0.8 < avgPrevious))

/-- `parseFloat(confidence.toFixed(2))` (line 340): round to two decimal
places (ties rounded up; the source's double rounding is modelled exactly
for the non-tie values arising here). -/
def round2 (q : ℚ) : ℚ := (round (q * 100) : ℤ) / 100

/-- The whole mutable state of the service: the fields of the
`HARModelService` instance plus the module-level `latestActivityState`. -/
structure HARState where
  sensorDataBuffer : List SensorData
  settings : Option ℚ
  isMonitoring : Bool
  lastActivity : Activity
  activityChangeCount : ℕ
  movementHistory : List ℚ
  highMovementDuration : ℕ
  consecutiveStillReadings : ℕ
  lastSuddenStopTime : ℚ
  walkingSessionActive : Bool
  published : ActivityState
deriving DecidableEq, Repr

/-- `predictActivity` (lines 135-355) as one state transition.  The input
is `none` for a null/non-object argument and `some sd` otherwise; `now` is
the tick's `Date.now()`.  The second component lists the snapshots handed
to `notifyListeners` during the tick, in order. -/
def predictActivity (st : HARState) (now : ℚ) (input : Option SensorData) :
    HARState × List ActivityState :=
  match input with
  | none => (st, [])
  | some sd =>
    if !sd.valid then (st, [])
    else
      match st.settings, st.isMonitoring with
      | some sensitivity, true =>
        let buf := pushCapped st.sensorDataBuffer SENSOR_DATA_BUFFER_SIZE sd
        if buf.length < SENSOR_DATA_BUFFER_SIZE then
          if st.published.name ≠ Activity.CALIBRATING then
            let pub := { st.published with name := Activity.CALIBRATING, confidence := 0.5 }
            ({ st with sensorDataBuffer := buf, published := pub }, [pub])
          else
            ({ st with sensorDataBuffer := buf }, [])
        else
          let θ := adjustedThresholds sensitivity
          let tm := totalMovement buf
          let rawPair := classifyConf tm θ
          let sm := smooth st.lastActivity st.activityChangeCount rawPair.1 rawPair.2
          let hist := pushCapped st.movementHistory 100 tm
          let sess := updateSession sm.activity
            { highMovementDuration := st.highMovementDuration
              consecutiveStillReadings := st.consecutiveStillReadings
              walkingSessionActive := st.walkingSessionActive }
          let timeSinceLastTrigger := now - st.lastSuddenStopTime
          let fire := suddenStopGuard hist sess.walkingSessionActive
            sess.highMovementDuration timeSinceLastTrigger θ
          let anomaly : Option Anomaly := if fire then some suddenStop else none
          let pub : ActivityState :=
            { name := sm.activity, confidence := round2 sm.confidence
              isProtectionActive := st.isMonitoring, anomaly := anomaly }
          ({ st with
              sensorDataBuffer := buf
              lastActivity := sm.lastActivity
              activityChangeCount := sm.changeCount
              movementHistory := hist
              highMovementDuration := if fire then 0 else sess.highMovementDuration
              consecutiveStillReadings := sess.consecutiveStillReadings
              lastSuddenStopTime := if fire then now else st.lastSuddenStopTime
              walkingSessionActive := if fire then false else sess.walkingSessionActive
              published := pub }, [pub])
      | _, _ =>
        let activityName := if st.isMonitoring then Activity.CALIBRATING else Activity.IDLE
        if st.published.name ≠ activityName then
          let pub := { st.published with name := activityName, confidence := 0.5 }
          ({ st with published := pub }, [pub])
        else
          (st, [])

/-- `stop` (lines 76-94): stop monitoring, discard the sensor buffer,
republish the terminal idle state.  The unsubscribe handle is external to
the model.  Second component: the snapshots broadcast. -/
def stop (st : HARState) : HARState × List ActivityState :=
  let pub : ActivityState :=
    { name := Activity.IDLE, confidence := 1.0, isProtectionActive := false, anomaly := none }
  ({ st with isMonitoring := false, sensorDataBuffer := [], published := pub }, [pub])

/-- `start` (lines 61-74): mark monitoring, republish with protection
active.  Sensor subscription is external to the model. -/
def start (st : HARState) : HARState × List ActivityState :=
  let pub := { st.published with isProtectionActive := true }
  ({ st with isMonitoring := true, published := pub }, [pub])

/-- A listener callback: it may throw (modelled by `Except.error`). -/
def Listener : Type := ActivityState → Except String Unit

/-- `notifyListeners` (lines 19-23): call each listener in order.  There is
no `try`/`catch`, so the first exception propagates out of the loop. -/
def notifyListeners (ls : List Listener) (st : ActivityState) : Except String Unit :=
  match ls with
  | [] => Except.ok ()
  | l :: rest =>
    match l st with
    | Except.ok () => notifyListeners rest st
    | Except.error e => Except.error e

/-- How many of the listeners are actually invoked by `notifyListeners`
before it returns or an exception escapes (the throwing listener itself
counts as invoked). -/
def notifiedCount (ls : List Listener) (st : ActivityState) : ℕ :=
  match ls with
  | [] => 0
  | l :: rest =>
    match l st with
    | Except.ok () => 1 + notifiedCount rest st
    | Except.error _ => 1

/-! ### Spec-side definitions (refinement targets)

These definitions follow the wording of the specification (steps 1-4 of the
classifier algorithm), independently of the source's helper functions, so
that the source pipeline can be compared against them. -/

/-- Modelled from the spec: the mean of a window of magnitudes. -/
def specMean (l : List ℚ) : ℚ := l.sum / l.length

/-- Modelled from the spec: the (population) variance of a window. -/
def specVariance (l : List ℚ) : ℚ :=
  ((l.map fun x => (x - specMean l) ^ 2).sum) / l.length

/-- Modelled from the spec: the variance of the gravity-corrected
accelerometer magnitudes `|m_i - mean(m)|` over the window. -/
def specAccelVariance (buf : List SensorData) : ℚ :=
  specVariance ((accelMagnitudes buf).map fun m => |m - specMean (accelMagnitudes buf)|)

/-- Modelled from the spec: the variance of the gyroscope magnitudes over
the window. -/
def specGyroVariance (buf : List SensorData) : ℚ :=
  specVariance (gyroMagnitudes buf)

/-! ### Concrete data used in counterexamples and witnesses -/

/-- A valid sample with all six fields zero. -/
def zeroSample : SensorData := ⟨some 0, some 0, some 0, some 0, some 0, some 0⟩

/-- A valid sample with zero accelerometer and gyroscope magnitude 1. -/
def oneGyroSample : SensorData := ⟨some 0, some 0, some 0, some 0, some 0, some 1⟩

/-- A full 25-sample window: 13 still samples and 12 samples of gyroscope
magnitude 1 (gyro variance `156/625`, accel variance `0`). -/
def cbuf : List SensorData :=
  List.replicate 13 zeroSample ++ List.replicate 12 oneGyroSample

lemma ratSqrt_zero : Rat.sqrt 0 = 0 := by
  simp

lemma ratSqrt_one : Rat.sqrt 1 = 1 := by
  simp

/-- The state of a freshly constructed service (constructor lines 40-54
together with the initial `latestActivityState` of lines 12-17). -/
def initialState : HARState :=
  { sensorDataBuffer := []
    settings := none
    isMonitoring := false
    lastActivity := Activity.IDLE
    activityChangeCount := 0
    movementHistory := []
    highMovementDuration := 0
    consecutiveStillReadings := 0
    lastSuddenStopTime := 0
    walkingSessionActive := false
    published := ⟨Activity.IDLE, 1, false, none⟩ }

/-- A sample whose `ax` field is missing/non-finite. -/
def invalidSample : SensorData := ⟨none, some 0, some 0, some 0, some 0, some 0⟩

/-! ### C1: the weighting of the combined movement score -/

/-- C1 counterexample: on a concrete full 25-sample window the code's
combined movement score is `accelVariance * 15 + gyroVariance * 85 =
2652/125 = 21.216`, while the claimed combination
`accelVariance × 0.15 + gyroVariance × 0.85` equals `663/3125 = 0.21216`;
the two differ, refuting the claim as stated. -/
theorem totalMovement_frac_weights_cex :
    cbuf.length = SENSOR_DATA_BUFFER_SIZE ∧
    totalMovement cbuf = 2652 / 125 ∧
    specAccelVariance cbuf * 0.15 + specGyroVariance cbuf * 0.85 = 663 / 3125 ∧
    (2652 / 125 : ℚ) ≠ 663 / 3125 := by
  refine ⟨by norm_num [cbuf, SENSOR_DATA_BUFFER_SIZE], ?_, ?_, by norm_num⟩
  · norm_num [totalMovement, accelVariance, gyroVariance, accelWithoutGravity,
      accelMagnitudes, gyroMagnitudes, calculateVariance, calculateMagnitude,
      cbuf, zeroSample, oneGyroSample, List.replicate, ratSqrt_zero, ratSqrt_one]
  · norm_num [specAccelVariance, specGyroVariance, specVariance, specMean,
      accelMagnitudes, gyroMagnitudes, calculateMagnitude,
      cbuf, zeroSample, oneGyroSample, List.replicate, ratSqrt_zero, ratSqrt_one]

/-- C1 amended: for every full window, the combined movement score used for
classification equals `accelVariance × 15 + gyroVariance × 85`, where
`accelVariance` is the variance of the gravity-corrected accelerometer
magnitudes `|m_i − mean(m)|` over the window (spec-side definition) and
`gyroVariance` is the variance of the gyroscope magnitudes. -/
theorem totalMovement_eq_weighted_variances (buf : List SensorData)
    (h : buf.length = SENSOR_DATA_BUFFER_SIZE) :
    totalMovement buf = specAccelVariance buf * 15 + specGyroVariance buf * 85 := by
  have ham : (accelMagnitudes buf).length = 25 := by
    simp [accelMagnitudes, h, SENSOR_DATA_BUFFER_SIZE]
  have hg : (gyroMagnitudes buf).length = 25 := by
    simp [gyroMagnitudes, h, SENSOR_DATA_BUFFER_SIZE]
  simp [totalMovement, accelVariance, gyroVariance, calculateVariance, ham, hg,
    specAccelVariance, specGyroVariance, specVariance, specMean, accelWithoutGravity]

/-- Witness for the amended C1 theorem at the concrete window `cbuf`. -/
theorem totalMovement_eq_weighted_variances_witness :
    cbuf.length = SENSOR_DATA_BUFFER_SIZE ∧
    totalMovement cbuf = specAccelVariance cbuf * 15 + specGyroVariance cbuf * 85 :=
  ⟨by norm_num [cbuf, SENSOR_DATA_BUFFER_SIZE],
   totalMovement_eq_weighted_variances cbuf (by norm_num [cbuf, SENSOR_DATA_BUFFER_SIZE])⟩

/-! ### C3: invalid samples are a complete no-op -/

/-- C3: if any required field of the sample is missing or non-finite, the
tick is a no-op: the state (buffers, counters, published snapshot) is
unchanged, nothing is broadcast to listeners, and the call returns
normally. -/
theorem invalid_sample_noop (st : HARState) (now : ℚ) (sd : SensorData)
    (h : sd.ax = none ∨ sd.ay = none ∨ sd.az = none ∨
         sd.gx = none ∨ sd.gy = none ∨ sd.gz = none) :
    predictActivity st now (some sd) = (st, []) := by
  have hv : sd.valid = false := by
    rcases h with h | h | h | h | h | h <;> simp [SensorData.valid, h]
  simp [predictActivity, hv]

/-- Witness for C3 at a concrete invalid sample and a concrete state. -/
theorem invalid_sample_noop_witness :
    invalidSample.ax = none ∧
    predictActivity initialState 0 (some invalidSample) = (initialState, []) :=
  ⟨rfl, invalid_sample_noop initialState 0 invalidSample (Or.inl rfl)⟩

/-! ### C4: hysteresis characterization -/

/-- C4: when the raw classification equals the last published activity the
counter resets; when it differs, the counter increments and exactly the
transitions IDLE↔STANDING with (incremented) counter below 3 and
STANDING↔WALKING with counter below 2 are suppressed — the previous
activity is re-published with confidence reduced by 0.3 floored at 0.3;
any other transition is accepted and the counter resets to 0. -/
theorem smoothing_characterization (last : Activity) (count : ℕ)
    (activity : Activity) (confidence : ℚ) :
    (activity = last → smooth last count activity confidence =
      { activity := activity, confidence := confidence
        lastActivity := last, changeCount := 0 }) ∧
    (activity ≠ last →
      (((last = Activity.IDLE ∧ activity = Activity.STANDING ∧ count + 1 < 3) ∨
        (last = Activity.STANDING ∧ activity = Activity.IDLE ∧ count + 1 < 3) ∨
        (last = Activity.STANDING ∧ activity = Activity.WALKING ∧ count + 1 < 2) ∨
        (last = Activity.WALKING ∧ activity = Activity.STANDING ∧ count + 1 < 2)) →
        smooth last count activity confidence =
          { activity := last, confidence := max 0.3 (confidence - 0.3)
            lastActivity := last, changeCount := count + 1 }) ∧
      (¬ ((last = Activity.IDLE ∧ activity = Activity.STANDING ∧ count + 1 < 3) ∨
          (last = Activity.STANDING ∧ activity = Activity.IDLE ∧ count + 1 < 3) ∨
          (last = Activity.STANDING ∧ activity = Activity.WALKING ∧ count + 1 < 2) ∨
          (last = Activity.WALKING ∧ activity = Activity.STANDING ∧ count + 1 < 2)) →
        smooth last count activity confidence =
          { activity := activity, confidence := confidence
            lastActivity := activity, changeCount := 0 })) := by
  refine ⟨fun h => by simp [smooth, h], fun hne => ⟨fun hcond => ?_, fun hcond => ?_⟩⟩
  · cases last <;> cases activity <;> simp_all [smooth]
  · cases last <;> cases activity <;> simp_all [smooth]

/-- Witness for C4: an IDLE→STANDING flicker with counter 1 is suppressed,
confidence dropping from 0.9 to 0.6. -/
theorem smoothing_characterization_witness :
    Activity.STANDING ≠ Activity.IDLE ∧
    smooth Activity.IDLE 0 Activity.STANDING 0.9 =
      { activity := Activity.IDLE, confidence := max 0.3 (0.9 - 0.3)
        lastActivity := Activity.IDLE, changeCount := 0 + 1 } := by
  refine ⟨by simp, ?_⟩
  exact ((smoothing_characterization Activity.IDLE 0 Activity.STANDING 0.9).2
    (by simp)).1 (Or.inl ⟨rfl, rfl, by norm_num⟩)

/-! ### C6: threshold scaling law and monotonicity in sensitivity -/

/-- C6: each adjusted threshold equals its base value times
`(1 + (1 − sensitivity) × k)` with `k = 0.6` for idle and standing, `0.4`
for walking and `0.3` for running, and for `s1 ≤ s2` in `[0,1]` every
threshold at `s1` is at least the corresponding threshold at `s2`. -/
theorem thresholds_formula_and_antitone :
    (∀ s : ℚ, adjustedThresholds s =
      { idle := 0.5 * (1 + (1 - s) * 0.6), standing := 2 * (1 + (1 - s) * 0.6)
        walking := 8 * (1 + (1 - s) * 0.4), running := 20 * (1 + (1 - s) * 0.3) }) ∧
    (∀ s1 s2 : ℚ, 0 ≤ s1 → s1 ≤ s2 → s2 ≤ 1 →
      (adjustedThresholds s2).idle ≤ (adjustedThresholds s1).idle ∧
      (adjustedThresholds s2).standing ≤ (adjustedThresholds s1).standing ∧
      (adjustedThresholds s2).walking ≤ (adjustedThresholds s1).walking ∧
      (adjustedThresholds s2).running ≤ (adjustedThresholds s1).running) := by
  constructor
  · intro s
    norm_num [adjustedThresholds]
  · intro s1 s2 h0 h12 h1
    refine ⟨?_, ?_, ?_, ?_⟩ <;> simp [adjustedThresholds] <;> nlinarith

/-- Witness for C6 at the extreme sensitivities 1 (high) and 0 (low). -/
theorem thresholds_formula_and_antitone_witness :
    (0 : ℚ) ≤ 0 ∧ (0 : ℚ) ≤ 1 ∧ (1 : ℚ) ≤ 1 ∧
    ((adjustedThresholds 1).idle ≤ (adjustedThresholds 0).idle ∧
     (adjustedThresholds 1).standing ≤ (adjustedThresholds 0).standing ∧
     (adjustedThresholds 1).walking ≤ (adjustedThresholds 0).walking ∧
     (adjustedThresholds 1).running ≤ (adjustedThresholds 0).running) :=
  ⟨by norm_num, by norm_num, by norm_num,
   thresholds_formula_and_antitone.2 0 1 (by norm_num) (by norm_num) (by norm_num)⟩

/-! ### C7: what stop() actually clears -/

/-- A running state with a nonempty movement history. -/
def stopCexSt : HARState :=
  { initialState with
      isMonitoring := true
      sensorDataBuffer := [zeroSample]
      movementHistory := [5] }

/-- C7 counterexample: `stop()` empties the sensor-sample window and
republishes the terminal idle state, but the movement-history buffer of a
concrete state is NOT empty afterwards, refuting the claim as stated. -/
theorem stop_keeps_movementHistory_cex :
    (stop stopCexSt).1.sensorDataBuffer = [] ∧
    (stop stopCexSt).1.published =
      { name := Activity.IDLE, confidence := 1
        isProtectionActive := false, anomaly := none } ∧
    (stop stopCexSt).1.movementHistory ≠ [] := by
  refine ⟨rfl, by norm_num [stop, stopCexSt], by simp [stop, stopCexSt]⟩

/-- C7 amended: `stop()` stops monitoring, empties the sensor-sample
window, republishes IDLE with confidence 1 and protection inactive — but
leaves the movement-history ring buffer untouched. -/
theorem stop_state_characterization (st : HARState) :
    (stop st).1.sensorDataBuffer = [] ∧
    (stop st).1.isMonitoring = false ∧
    (stop st).1.published =
      { name := Activity.IDLE, confidence := 1
        isProtectionActive := false, anomaly := none } ∧
    (stop st).1.movementHistory = st.movementHistory ∧
    (stop st).2 = [{ name := Activity.IDLE, confidence := 1
                     isProtectionActive := false, anomaly := none }] := by
  refine ⟨rfl, rfl, by norm_num [stop], rfl, by norm_num [stop]⟩

/-! ### C8: a throwing listener during broadcast -/

/-- A listener that always throws. -/
def throwingListener : Listener := fun _ => Except.error "boom"

/-- A listener that always succeeds. -/
def okListener : Listener := fun _ => Except.ok ()

/-- A published snapshot used for broadcasts in the listener theorems. -/
def somePub : ActivityState := ⟨Activity.IDLE, 1, false, none⟩

/-- C8 counterexample: with two subscribed listeners of which the first
throws, the broadcast loop propagates the exception and the second
listener is never invoked (only 1 of 2 listeners notified) — there is no
per-listener catch, refuting the claim. -/
theorem listener_throw_cex :
    notifyListeners [throwingListener, okListener] somePub = Except.error "boom" ∧
    notifiedCount [throwingListener, okListener] somePub = 1 ∧
    ([throwingListener, okListener] : List Listener).length = 2 := by
  exact ⟨rfl, rfl, rfl⟩

/-- C8 amended: when a listener throws during a broadcast, the exception
propagates out of `notifyListeners`; the listeners before the throwing one
are notified and the ones after it are not. -/
theorem listener_throw_propagates (pre post : List Listener) (l : Listener)
    (st : ActivityState) (e : String)
    (hpre : ∀ l2 ∈ pre, l2 st = Except.ok ())
    (hl : l st = Except.error e) :
    notifyListeners (pre ++ l :: post) st = Except.error e ∧
    notifiedCount (pre ++ l :: post) st = pre.length + 1 := by
  induction pre with
  | nil => simp [notifyListeners, notifiedCount, hl]
  | cons p rest ih =>
    have hp : p st = Except.ok () := hpre p (by simp)
    have hrest : ∀ l2 ∈ rest, l2 st = Except.ok () := fun l2 h => hpre l2 (by simp [h])
    have hr := ih hrest
    refine ⟨?_, ?_⟩
    · simpa [notifyListeners, hp] using hr.1
    · simp [notifiedCount, hp, hr.2]
      omega

/-- Witness for the amended C8 theorem: one well-behaved listener before
the throwing one, one after. -/
theorem listener_throw_propagates_witness :
    (∀ l2 ∈ [okListener], l2 somePub = Except.ok ()) ∧
    throwingListener somePub = Except.error "boom" ∧
    (notifyListeners ([okListener] ++ throwingListener :: [okListener]) somePub =
        Except.error "boom" ∧
      notifiedCount ([okListener] ++ throwingListener :: [okListener]) somePub =
        [okListener].length + 1) :=
  ⟨by intro l2 h; rw [List.mem_singleton] at h; subst h; rfl, rfl,
   listener_throw_propagates [okListener] [okListener] throwingListener somePub "boom"
     (by intro l2 h; rw [List.mem_singleton] at h; subst h; rfl) rfl⟩


def bracketOf (tm : ℚ) (θ : Thresholds) : ℕ :=
  if θ.running < tm then 4
  else if θ.walking < tm then 3
  else if θ.standing < tm then 2
  else if θ.idle < tm then 1
  else 0

def confidenceOf (tm : ℚ) (θ : Thresholds) : ℚ := (classifyConf tm θ).2

lemma classifyConf_val4 (θ : Thresholds) (tm : ℚ) (h : θ.running < tm) :
    (classifyConf tm θ).2 = min 0.95 (0.75 + (tm - θ.running) / θ.running * 0.2) := by
  simp [classifyConf, h]

lemma classifyConf_val3 (θ : Thresholds) (tm : ℚ) (h4 : ¬ θ.running < tm)
    (h3 : θ.walking < tm) (hr : 0 < θ.running - θ.walking) :
    (classifyConf tm θ).2 =
      min 0.92 (0.65 + (tm - θ.walking) / (θ.running - θ.walking) * 0.27) := by
  simp [classifyConf, h4, h3, hr]

lemma classifyConf_val2 (θ : Thresholds) (tm : ℚ) (h4 : ¬ θ.running < tm)
    (h3 : ¬ θ.walking < tm) (h2 : θ.standing < tm) (hr : 0 < θ.walking - θ.standing) :
    (classifyConf tm θ).2 =
      min 0.88 (0.55 + (tm - θ.standing) / (θ.walking - θ.standing) * 0.33) := by
  simp [classifyConf, h4, h3, h2, hr]

lemma classifyConf_val1 (θ : Thresholds) (tm : ℚ) (h4 : ¬ θ.running < tm)
    (h3 : ¬ θ.walking < tm) (h2 : ¬ θ.standing < tm) (h1 : θ.idle < tm)
    (hr : 0 < θ.standing - θ.idle) :
    (classifyConf tm θ).2 =
      min 0.82 (0.45 + (tm - θ.idle) / (θ.standing - θ.idle) * 0.37) := by
  simp [classifyConf, h4, h3, h2, h1, hr]

lemma classifyConf_val0 (θ : Thresholds) (tm : ℚ) (h4 : ¬ θ.running < tm)
    (h3 : ¬ θ.walking < tm) (h2 : ¬ θ.standing < tm) (h1 : ¬ θ.idle < tm)
    (hI : 0 < θ.idle) :
    (classifyConf tm θ).2 = max 0.7 (0.95 - min 1 (tm / θ.idle) * 0.25) := by
  simp [classifyConf, h4, h3, h2, h1, hI]
  norm_num

lemma bracketOf_four (tm : ℚ) (θ : Thresholds) (h : bracketOf tm θ = 4) :
    θ.running < tm := by
  unfold bracketOf at h
  split_ifs at h with c1 c2 c3 c4 <;> first | omega | exact c1

lemma bracketOf_three (tm : ℚ) (θ : Thresholds) (h : bracketOf tm θ = 3) :
    ¬ θ.running < tm ∧ θ.walking < tm := by
  unfold bracketOf at h
  split_ifs at h with c1 c2 c3 c4 <;> first | omega | exact ⟨c1, c2⟩

lemma bracketOf_two (tm : ℚ) (θ : Thresholds) (h : bracketOf tm θ = 2) :
    ¬ θ.running < tm ∧ ¬ θ.walking < tm ∧ θ.standing < tm := by
  unfold bracketOf at h
  split_ifs at h with c1 c2 c3 c4 <;> first | omega | exact ⟨c1, c2, c3⟩

lemma bracketOf_one (tm : ℚ) (θ : Thresholds) (h : bracketOf tm θ = 1) :
    ¬ θ.running < tm ∧ ¬ θ.walking < tm ∧ ¬ θ.standing < tm ∧ θ.idle < tm := by
  unfold bracketOf at h
  split_ifs at h with c1 c2 c3 c4 <;> first | omega | exact ⟨c1, c2, c3, c4⟩

lemma bracketOf_zero (tm : ℚ) (θ : Thresholds) (h : bracketOf tm θ = 0) :
    ¬ θ.running < tm ∧ ¬ θ.walking < tm ∧ ¬ θ.standing < tm ∧ ¬ θ.idle < tm := by
  unfold bracketOf at h
  split_ifs at h with c1 c2 c3 c4 <;> first | omega | exact ⟨c1, c2, c3, c4⟩

lemma bracketOf_lt_five (tm : ℚ) (θ : Thresholds) : bracketOf tm θ < 5 := by
  unfold bracketOf
  split_ifs <;> omega

lemma confidence_mono_aux (θ : Thresholds) (hI : 0 < θ.idle) (hIS : θ.idle < θ.standing)
    (hSW : θ.standing < θ.walking) (hWR : θ.walking < θ.running)
    (a b : ℚ) (hab : a ≤ b) (hbr : bracketOf a θ = bracketOf b θ) :
    (1 ≤ bracketOf a θ → confidenceOf a θ ≤ confidenceOf b θ) ∧
    (bracketOf a θ = 0 → confidenceOf b θ ≤ confidenceOf a θ) := by
  have hR : 0 < θ.running := by linarith
  constructor
  · intro hcase
    have h5 := bracketOf_lt_five a θ
    have hc : bracketOf a θ = 1 ∨ bracketOf a θ = 2 ∨ bracketOf a θ = 3 ∨
        bracketOf a θ = 4 := by omega
    rcases hc with h | h | h | h
    · obtain ⟨a4, a3, a2, a1⟩ := bracketOf_one a θ h
      obtain ⟨b4, b3, b2, b1⟩ := bracketOf_one b θ (hbr.symm.trans h)
      rw [confidenceOf, confidenceOf, classifyConf_val1 θ a a4 a3 a2 a1 (by linarith),
        classifyConf_val1 θ b b4 b3 b2 b1 (by linarith)]
      have hdiv : (a - θ.idle) / (θ.standing - θ.idle) ≤
          (b - θ.idle) / (θ.standing - θ.idle) :=
        (div_le_div_iff_of_pos_right (by linarith)).mpr (by linarith)
      exact min_le_min le_rfl (by linarith)
    · obtain ⟨a4, a3, a2⟩ := bracketOf_two a θ h
      obtain ⟨b4, b3, b2⟩ := bracketOf_two b θ (hbr.symm.trans h)
      rw [confidenceOf, confidenceOf, classifyConf_val2 θ a a4 a3 a2 (by linarith),
        classifyConf_val2 θ b b4 b3 b2 (by linarith)]
      have hdiv : (a - θ.standing) / (θ.walking - θ.standing) ≤
          (b - θ.standing) / (θ.walking - θ.standing) :=
        (div_le_div_iff_of_pos_right (by linarith)).mpr (by linarith)
      exact min_le_min le_rfl (by linarith)
    · obtain ⟨a4, a3⟩ := bracketOf_three a θ h
      obtain ⟨b4, b3⟩ := bracketOf_three b θ (hbr.symm.trans h)
      rw [confidenceOf, confidenceOf, classifyConf_val3 θ a a4 a3 (by linarith),
        classifyConf_val3 θ b b4 b3 (by linarith)]
      have hdiv : (a - θ.walking) / (θ.running - θ.walking) ≤
          (b - θ.walking) / (θ.running - θ.walking) :=
        (div_le_div_iff_of_pos_right (by linarith)).mpr (by linarith)
      exact min_le_min le_rfl (by linarith)
    · have a4 := bracketOf_four a θ h
      have b4 := bracketOf_four b θ (hbr.symm.trans h)
      rw [confidenceOf, confidenceOf, classifyConf_val4 θ a a4, classifyConf_val4 θ b b4]
      have hdiv : (a - θ.running) / θ.running ≤ (b - θ.running) / θ.running :=
        (div_le_div_iff_of_pos_right hR).mpr (by linarith)
      exact min_le_min le_rfl (by linarith)
  · intro hcase
    obtain ⟨a4, a3, a2, a1⟩ := bracketOf_zero a θ hcase
    obtain ⟨b4, b3, b2, b1⟩ := bracketOf_zero b θ (hbr.symm.trans hcase)
    rw [confidenceOf, confidenceOf, classifyConf_val0 θ a a4 a3 a2 a1 hI,
      classifyConf_val0 θ b b4 b3 b2 b1 hI]
    have hdiv : a / θ.idle ≤ b / θ.idle := (div_le_div_iff_of_pos_right hI).mpr hab
    have hmin : min 1 (a / θ.idle) ≤ min 1 (b / θ.idle) := min_le_min le_rfl hdiv
    exact max_le_max le_rfl (by linarith)


/-! ### C5: confidence monotonicity within a bracket -/

/-- C5 counterexample: at sensitivity 1 the scores `0 < 2/5` both classify
as IDLE (same label, hence the same bracket in the claim's sense), yet the
computed confidence at `0` (0.95) is strictly greater than at `2/5` (0.75):
in the idle bracket confidence decreases as movement grows, refuting the
claim as stated. -/
theorem confidence_monotone_cex :
    (0 : ℚ) < 2 / 5 ∧
    (classifyConf 0 (adjustedThresholds 1)).1 = (classifyConf (2 / 5) (adjustedThresholds 1)).1 ∧
    ¬ ((classifyConf 0 (adjustedThresholds 1)).2 ≤ (classifyConf (2 / 5) (adjustedThresholds 1)).2) := by
  norm_num [classifyConf, adjustedThresholds]

/-- C5 amended: within one formula bracket of the classification cascade
(brackets delimited by the four adjusted thresholds — note both brackets
between the idle and walking thresholds carry the STANDING label), the
confidence is monotone non-decreasing in the score for every bracket above
the idle threshold, and monotone non-increasing inside the idle bracket. -/
theorem confidence_bracket_monotone (s a b : ℚ) (h0 : 0 ≤ s) (h1 : s ≤ 1)
    (hab : a ≤ b)
    (hbr : bracketOf a (adjustedThresholds s) = bracketOf b (adjustedThresholds s)) :
    (1 ≤ bracketOf a (adjustedThresholds s) →
      confidenceOf a (adjustedThresholds s) ≤ confidenceOf b (adjustedThresholds s)) ∧
    (bracketOf a (adjustedThresholds s) = 0 →
      confidenceOf b (adjustedThresholds s) ≤ confidenceOf a (adjustedThresholds s)) := by
  refine confidence_mono_aux (adjustedThresholds s) ?_ ?_ ?_ ?_ a b hab hbr <;>
    simp [adjustedThresholds] <;> nlinarith

/-- Witness for the amended C5 theorem at sensitivity 1 with scores 0 and
2/5 (both inside the idle bracket). -/
theorem confidence_bracket_monotone_witness :
    (0 : ℚ) ≤ 1 ∧ (1 : ℚ) ≤ 1 ∧ (0 : ℚ) ≤ 2 / 5 ∧
    bracketOf 0 (adjustedThresholds 1) = bracketOf (2 / 5) (adjustedThresholds 1) ∧
    ((1 ≤ bracketOf 0 (adjustedThresholds 1) →
      confidenceOf 0 (adjustedThresholds 1) ≤ confidenceOf (2 / 5) (adjustedThresholds 1)) ∧
     (bracketOf 0 (adjustedThresholds 1) = 0 →
      confidenceOf (2 / 5) (adjustedThresholds 1) ≤ confidenceOf 0 (adjustedThresholds 1))) :=
  ⟨by norm_num, by norm_num, by norm_num, by norm_num [bracketOf, adjustedThresholds],
   confidence_bracket_monotone 1 0 (2 / 5) (by norm_num) (by norm_num) (by norm_num)
     (by norm_num [bracketOf, adjustedThresholds])⟩


/-! ### Per-tick decomposition of a full classification tick -/


def tickBuffer (st : HARState) (sd : SensorData) : List SensorData :=
  pushCapped st.sensorDataBuffer SENSOR_DATA_BUFFER_SIZE sd

def tickMovement (st : HARState) (sd : SensorData) : ℚ :=
  totalMovement (tickBuffer st sd)

def tickSmooth (s : ℚ) (st : HARState) (sd : SensorData) : SmoothResult :=
  smooth st.lastActivity st.activityChangeCount
    (classifyConf (tickMovement st sd) (adjustedThresholds s)).1
    (classifyConf (tickMovement st sd) (adjustedThresholds s)).2

def tickHistory (st : HARState) (sd : SensorData) : List ℚ :=
  pushCapped st.movementHistory 100 (tickMovement st sd)

def tickSession (s : ℚ) (st : HARState) (sd : SensorData) : SessionState :=
  updateSession (tickSmooth s st sd).activity
    { highMovementDuration := st.highMovementDuration
      consecutiveStillReadings := st.consecutiveStillReadings
      walkingSessionActive := st.walkingSessionActive }

def tickFire (s : ℚ) (st : HARState) (now : ℚ) (sd : SensorData) : Bool :=
  suddenStopGuard (tickHistory st sd) (tickSession s st sd).walkingSessionActive
    (tickSession s st sd).highMovementDuration (now - st.lastSuddenStopTime)
    (adjustedThresholds s)

def fullTickPub (s : ℚ) (st : HARState) (now : ℚ) (sd : SensorData) : ActivityState :=
  { name := (tickSmooth s st sd).activity
    confidence := round2 (tickSmooth s st sd).confidence
    isProtectionActive := st.isMonitoring
    anomaly := if tickFire s st now sd then some suddenStop else none }

def fullTickState (s : ℚ) (st : HARState) (now : ℚ) (sd : SensorData) : HARState :=
  { st with
      sensorDataBuffer := tickBuffer st sd
      lastActivity := (tickSmooth s st sd).lastActivity
      activityChangeCount := (tickSmooth s st sd).changeCount
      movementHistory := tickHistory st sd
      highMovementDuration :=
        if tickFire s st now sd then 0 else (tickSession s st sd).highMovementDuration
      consecutiveStillReadings := (tickSession s st sd).consecutiveStillReadings
      lastSuddenStopTime := if tickFire s st now sd then now else st.lastSuddenStopTime
      walkingSessionActive :=
        if tickFire s st now sd then false else (tickSession s st sd).walkingSessionActive
      published := fullTickPub s st now sd }

lemma predictActivity_full (st : HARState) (now : ℚ) (sd : SensorData) (s : ℚ)
    (hv : sd.valid = true) (hs : st.settings = some s) (hm : st.isMonitoring = true)
    (hb : ¬ (pushCapped st.sensorDataBuffer SENSOR_DATA_BUFFER_SIZE sd).length <
        SENSOR_DATA_BUFFER_SIZE) :
    predictActivity st now (some sd) =
      (fullTickState s st now sd, [fullTickPub s st now sd]) := by
  unfold predictActivity
  simp only [hv, hs, hm, Bool.not_true, Bool.false_eq_true, if_false]
  rw [if_neg hb]
  simp [fullTickState, fullTickPub, tickBuffer, tickMovement, tickSmooth, tickHistory,
    tickSession, tickFire, hs, hm]



lemma pushCapped_length (l : List α) (cap : ℕ) (x : α) :
    (pushCapped l cap x).length = if cap < l.length + 1 then l.length else l.length + 1 := by
  simp only [pushCapped, List.length_append, List.length_singleton]
  split_ifs with h
  · simp [List.length_tail]
  · simp

lemma suddenStopGuard_iff (history : List ℚ) (walkingActive : Bool) (hmd : ℕ)
    (timeSince : ℚ) (θ : Thresholds) :
    suddenStopGuard history walkingActive hmd timeSince θ = true ↔
    (50 ≤ history.length ∧ walkingActive = true ∧ 50 ≤ hmd ∧ 30000 < timeSince ∧
     0.9 < (listAvg (jsSliceNeg history 20 10) - listAvg (jsSliceNeg history 3 0)) /
         listAvg (jsSliceNeg history 20 10) ∧
     θ.walking * 1.5 < listAvg (jsSliceNeg history 50 20) ∧
     θ.walking * 1.5 < listAvg (jsSliceNeg history 20 10) ∧
     listAvg (jsSliceNeg history 3 0) < θ.idle * 2 ∧
     θ.running * 0.8 < listAvg (jsSliceNeg history 20 10)) := by
  unfold suddenStopGuard
  simp only [Bool.and_eq_true, decide_eq_true_eq]
  tauto

lemma suddenStopGuard_not_walking (history : List ℚ) (hmd : ℕ)
    (timeSince : ℚ) (θ : Thresholds) :
    suddenStopGuard history false hmd timeSince θ = false := by
  unfold suddenStopGuard
  simp

lemma updateSession_wsa_false (a : Activity) (csr : ℕ) :
    (updateSession a { highMovementDuration := 0, consecutiveStillReadings := csr
                       walkingSessionActive := false }).walkingSessionActive = false := by
  unfold updateSession
  rcases a <;> simp

/-- C2 amended: on any completed classification tick the published anomaly
is `some {SUDDEN_STOP, HIGH}` iff all of: the movement history (after this
tick's push) holds at least 50 entries, a walking session is active, high
movement has been sustained for at least 50 ticks, STRICTLY more than
30000 ms have elapsed since the last trigger, the relative drop between
the 10-sample prior window and the 3-sample recent window exceeds 0.9,
the 30-sample long-term window and the prior window are STRICTLY above
1.5× the walking threshold, the prior window is STRICTLY above 0.8× the
running threshold, and the recent window is below 2× the idle threshold.
(The claim's non-strict "at least" readings of the time/threshold
comparisons are refuted by `suddenStop_boundary_cex`.)  In particular a
drop from walking-level movement, with the prior window at most 0.8× the
running threshold, never fires. -/
theorem suddenStop_published_iff (st : HARState) (now : ℚ) (sd : SensorData) (s : ℚ)
    (hv : sd.valid = true) (hs : st.settings = some s) (hm : st.isMonitoring = true)
    (hb : SENSOR_DATA_BUFFER_SIZE ≤
        (pushCapped st.sensorDataBuffer SENSOR_DATA_BUFFER_SIZE sd).length) :
    (predictActivity st now (some sd)).1.published.anomaly = some suddenStop ↔
    (50 ≤ (tickHistory st sd).length ∧
     (tickSession s st sd).walkingSessionActive = true ∧
     50 ≤ (tickSession s st sd).highMovementDuration ∧
     30000 < now - st.lastSuddenStopTime ∧
     0.9 < (listAvg (jsSliceNeg (tickHistory st sd) 20 10) -
            listAvg (jsSliceNeg (tickHistory st sd) 3 0)) /
           listAvg (jsSliceNeg (tickHistory st sd) 20 10) ∧
     (adjustedThresholds s).walking * 1.5 < listAvg (jsSliceNeg (tickHistory st sd) 50 20) ∧
     (adjustedThresholds s).walking * 1.5 < listAvg (jsSliceNeg (tickHistory st sd) 20 10) ∧
     listAvg (jsSliceNeg (tickHistory st sd) 3 0) < (adjustedThresholds s).idle * 2 ∧
     (adjustedThresholds s).running * 0.8 < listAvg (jsSliceNeg (tickHistory st sd) 20 10)) := by
  have hstep := predictActivity_full st now sd s hv hs hm (by omega)
  have key : (predictActivity st now (some sd)).1.published.anomaly = some suddenStop ↔
      tickFire s st now sd = true := by
    rw [hstep]
    show (if tickFire s st now sd then some suddenStop else none) = some suddenStop ↔ _
    cases hfire : tickFire s st now sd <;> simp [hfire]
  rw [key,
    show tickFire s st now sd =
      suddenStopGuard (tickHistory st sd) (tickSession s st sd).walkingSessionActive
        (tickSession s st sd).highMovementDuration (now - st.lastSuddenStopTime)
        (adjustedThresholds s) from rfl,
    suddenStopGuard_iff]

/-- C10: the anomaly field is recomputed from scratch on every completed
classification tick — the published anomaly equals
`if tickFire … then some suddenStop else none` regardless of the
previously published anomaly (never latched), and after a tick that fires,
the next completed classification tick publishes `anomaly = none`. -/
theorem anomaly_pulse (st : HARState) (now : ℚ) (sd : SensorData) (s : ℚ)
    (hv : sd.valid = true) (hs : st.settings = some s) (hm : st.isMonitoring = true)
    (hb : SENSOR_DATA_BUFFER_SIZE ≤
        (pushCapped st.sensorDataBuffer SENSOR_DATA_BUFFER_SIZE sd).length) :
    ((predictActivity st now (some sd)).1.published.anomaly =
      if tickFire s st now sd then some suddenStop else none) ∧
    ((predictActivity st now (some sd)).1.published.anomaly = some suddenStop →
      ∀ (now2 : ℚ) (sd2 : SensorData), sd2.valid = true →
        (predictActivity (predictActivity st now (some sd)).1 now2
          (some sd2)).1.published.anomaly = none) := by
  have hstep := predictActivity_full st now sd s hv hs hm (by omega)
  constructor
  · rw [hstep]
    rfl
  · intro hfired now2 sd2 hv2
    have hfire : tickFire s st now sd = true := by
      by_contra hf
      rw [hstep] at hfired
      have hff : tickFire s st now sd = false := by
        cases hx : tickFire s st now sd
        · rfl
        · exact absurd hx hf
      have : (fullTickState s st now sd).published.anomaly = none := by
        show (if tickFire s st now sd then some suddenStop else none) = none
        rw [hff]
        rfl
      rw [this] at hfired
      exact Option.noConfusion hfired
    have hs2 : (predictActivity st now (some sd)).1.settings = some s := by
      rw [hstep]; exact hs
    have hm2 : (predictActivity st now (some sd)).1.isMonitoring = true := by
      rw [hstep]; exact hm
    have hbuf2 : SENSOR_DATA_BUFFER_SIZE ≤
        (predictActivity st now (some sd)).1.sensorDataBuffer.length := by
      rw [hstep]
      show SENSOR_DATA_BUFFER_SIZE ≤ (tickBuffer st sd).length
      exact hb
    have hb2 : SENSOR_DATA_BUFFER_SIZE ≤
        (pushCapped (predictActivity st now (some sd)).1.sensorDataBuffer
          SENSOR_DATA_BUFFER_SIZE sd2).length := by
      rw [pushCapped_length]
      split_ifs <;> omega
    have hstep2 := predictActivity_full (predictActivity st now (some sd)).1 now2 sd2 s
      hv2 hs2 hm2 (by omega)
    rw [hstep2]
    show (if tickFire s (predictActivity st now (some sd)).1 now2 sd2
        then some suddenStop else none) = none
    have hhmd : (predictActivity st now (some sd)).1.highMovementDuration = 0 := by
      rw [hstep]
      show (if tickFire s st now sd then 0
        else (tickSession s st sd).highMovementDuration) = 0
      rw [hfire]
      rfl
    have hwsa : (predictActivity st now (some sd)).1.walkingSessionActive = false := by
      rw [hstep]
      show (if tickFire s st now sd then false
        else (tickSession s st sd).walkingSessionActive) = false
      rw [hfire]
      rfl
    have hsess : (tickSession s (predictActivity st now (some sd)).1
        sd2).walkingSessionActive = false := by
      unfold tickSession
      rw [hhmd, hwsa]
      exact updateSession_wsa_false _ _
    have hfire2 : tickFire s (predictActivity st now (some sd)).1 now2 sd2 = false := by
      unfold tickFire
      rw [hsess]
      exact suddenStopGuard_not_walking _ _ _ _
    rw [hfire2]
    rfl



def cexSt : HARState :=
  { sensorDataBuffer := List.replicate 25 zeroSample
    settings := some 1
    isMonitoring := true
    lastActivity := Activity.IDLE
    activityChangeCount := 0
    movementHistory := List.replicate 40 30 ++ List.replicate 9 0
    highMovementDuration := 60
    consecutiveStillReadings := 0
    lastSuddenStopTime := 0
    walkingSessionActive := true
    published := ⟨Activity.IDLE, 0.95, true, none⟩ }

lemma IDLE_ne_WALKING : (Activity.IDLE = Activity.WALKING) = False := by simp

lemma IDLE_ne_RUNNING : (Activity.IDLE = Activity.RUNNING) = False := by simp

/-! ### C2: the exact sudden-stop trigger guard -/

set_option maxRecDepth 8000 in
/-- C2 counterexample: a concrete completed tick (full window, walking
session active, sustained high movement, 40×30 followed by 10×0 in the
movement history, so the drop is 100%, the prior and long-term windows
average 30 — well above every threshold multiple — and the recent window
averages 0) at which EXACTLY 30000 ms have elapsed since the last trigger:
every condition of the claim under its "at least 30 seconds" reading holds,
yet the code (which requires strictly more than 30000 ms) publishes no
anomaly, refuting the claimed "if and only if" as stated. -/
theorem suddenStop_boundary_cex :
    zeroSample.valid = true ∧
    cexSt.settings = some 1 ∧
    cexSt.isMonitoring = true ∧
    SENSOR_DATA_BUFFER_SIZE ≤
      (pushCapped cexSt.sensorDataBuffer SENSOR_DATA_BUFFER_SIZE zeroSample).length ∧
    50 ≤ (tickHistory cexSt zeroSample).length ∧
    (tickSession 1 cexSt zeroSample).walkingSessionActive = true ∧
    50 ≤ (tickSession 1 cexSt zeroSample).highMovementDuration ∧
    (30000 : ℚ) ≤ 30000 - cexSt.lastSuddenStopTime ∧
    (0.9 : ℚ) < (listAvg (jsSliceNeg (tickHistory cexSt zeroSample) 20 10) -
        listAvg (jsSliceNeg (tickHistory cexSt zeroSample) 3 0)) /
        listAvg (jsSliceNeg (tickHistory cexSt zeroSample) 20 10) ∧
    (adjustedThresholds 1).walking * 1.5 ≤
      listAvg (jsSliceNeg (tickHistory cexSt zeroSample) 50 20) ∧
    (adjustedThresholds 1).walking * 1.5 ≤
      listAvg (jsSliceNeg (tickHistory cexSt zeroSample) 20 10) ∧
    listAvg (jsSliceNeg (tickHistory cexSt zeroSample) 3 0) <
      (adjustedThresholds 1).idle * 2 ∧
    (adjustedThresholds 1).running * 0.8 ≤
      listAvg (jsSliceNeg (tickHistory cexSt zeroSample) 20 10) ∧
    (predictActivity cexSt 30000 (some zeroSample)).1.published.anomaly = none := by
  refine ⟨rfl, rfl, rfl, ?_, ?_, ?_, ?_, ?_, ?_, ?_, ?_, ?_, ?_, ?_⟩ <;>
    norm_num [predictActivity, tickHistory, tickSession, tickSmooth, tickMovement,
      tickBuffer, pushCapped, SENSOR_DATA_BUFFER_SIZE, totalMovement, accelVariance,
      gyroVariance, accelWithoutGravity, accelMagnitudes, gyroMagnitudes,
      calculateVariance, calculateMagnitude, ratSqrt_zero, adjustedThresholds,
      classifyConf, smooth, updateSession, suddenStopGuard, jsSliceNeg, listAvg,
      List.replicate, round2, cexSt, zeroSample, SensorData.valid,
      IDLE_ne_WALKING, IDLE_ne_RUNNING]

/-- Witness for the amended C2 theorem at a concrete completed tick one
millisecond past the cooldown boundary. -/
theorem suddenStop_published_iff_witness :
    zeroSample.valid = true ∧
    cexSt.settings = some 1 ∧
    cexSt.isMonitoring = true ∧
    SENSOR_DATA_BUFFER_SIZE ≤
      (pushCapped cexSt.sensorDataBuffer SENSOR_DATA_BUFFER_SIZE zeroSample).length ∧
    ((predictActivity cexSt 30001 (some zeroSample)).1.published.anomaly =
        some suddenStop ↔
      (50 ≤ (tickHistory cexSt zeroSample).length ∧
       (tickSession 1 cexSt zeroSample).walkingSessionActive = true ∧
       50 ≤ (tickSession 1 cexSt zeroSample).highMovementDuration ∧
       30000 < (30001 : ℚ) - cexSt.lastSuddenStopTime ∧
       0.9 < (listAvg (jsSliceNeg (tickHistory cexSt zeroSample) 20 10) -
              listAvg (jsSliceNeg (tickHistory cexSt zeroSample) 3 0)) /
             listAvg (jsSliceNeg (tickHistory cexSt zeroSample) 20 10) ∧
       (adjustedThresholds 1).walking * 1.5 <
         listAvg (jsSliceNeg (tickHistory cexSt zeroSample) 50 20) ∧
       (adjustedThresholds 1).walking * 1.5 <
         listAvg (jsSliceNeg (tickHistory cexSt zeroSample) 20 10) ∧
       listAvg (jsSliceNeg (tickHistory cexSt zeroSample) 3 0) <
         (adjustedThresholds 1).idle * 2 ∧
       (adjustedThresholds 1).running * 0.8 <
         listAvg (jsSliceNeg (tickHistory cexSt zeroSample) 20 10))) :=
  ⟨rfl, rfl, rfl,
   by rw [pushCapped_length]; norm_num [cexSt, SENSOR_DATA_BUFFER_SIZE],
   suddenStop_published_iff cexSt 30001 zeroSample 1 rfl rfl rfl
     (by rw [pushCapped_length]; norm_num [cexSt, SENSOR_DATA_BUFFER_SIZE])⟩

/-! ### C10: anomalies are one-tick pulses -/

set_option maxRecDepth 8000 in
/-- Witness for C10: the concrete state `cexSt` fires one millisecond past
the cooldown; the immediately following completed tick publishes no
anomaly. -/
theorem anomaly_pulse_witness :
    zeroSample.valid = true ∧
    cexSt.settings = some 1 ∧
    cexSt.isMonitoring = true ∧
    SENSOR_DATA_BUFFER_SIZE ≤
      (pushCapped cexSt.sensorDataBuffer SENSOR_DATA_BUFFER_SIZE zeroSample).length ∧
    (predictActivity cexSt 30001 (some zeroSample)).1.published.anomaly =
      some suddenStop ∧
    (predictActivity (predictActivity cexSt 30001 (some zeroSample)).1 30002
      (some zeroSample)).1.published.anomaly = none := by
  have hb : SENSOR_DATA_BUFFER_SIZE ≤
      (pushCapped cexSt.sensorDataBuffer SENSOR_DATA_BUFFER_SIZE zeroSample).length := by
    rw [pushCapped_length]; norm_num [cexSt, SENSOR_DATA_BUFFER_SIZE]
  have hfired : (predictActivity cexSt 30001 (some zeroSample)).1.published.anomaly =
      some suddenStop := by
    norm_num [predictActivity, cexSt, zeroSample, SensorData.valid, pushCapped,
      SENSOR_DATA_BUFFER_SIZE, totalMovement, accelVariance, gyroVariance,
      accelWithoutGravity, accelMagnitudes, gyroMagnitudes, calculateVariance,
      calculateMagnitude, ratSqrt_zero, adjustedThresholds, classifyConf, smooth,
      updateSession, suddenStopGuard, jsSliceNeg, listAvg, List.replicate, round2,
      suddenStop, IDLE_ne_WALKING, IDLE_ne_RUNNING]
  exact ⟨rfl, rfl, rfl, hb, hfired,
    (anomaly_pulse cexSt 30001 zeroSample 1 rfl rfl rfl hb).2 hfired 30002 zeroSample rfl⟩


/-! ### C9: CALIBRATING until the window fills -/


lemma predictActivity_underfull (st : HARState) (now : ℚ) (sd : SensorData) (s : ℚ)
    (hv : sd.valid = true) (hs : st.settings = some s) (hm : st.isMonitoring = true)
    (hb : (pushCapped st.sensorDataBuffer SENSOR_DATA_BUFFER_SIZE sd).length <
        SENSOR_DATA_BUFFER_SIZE) :
    (predictActivity st now (some sd)).1 =
      if st.published.name = Activity.CALIBRATING then
        { st with sensorDataBuffer :=
            pushCapped st.sensorDataBuffer SENSOR_DATA_BUFFER_SIZE sd }
      else
        { st with
            sensorDataBuffer := pushCapped st.sensorDataBuffer SENSOR_DATA_BUFFER_SIZE sd
            published := { st.published with
              name := Activity.CALIBRATING, confidence := 0.5 } } := by
  unfold predictActivity
  simp only [hv, hs, hm, Bool.not_true, Bool.false_eq_true, if_false]
  rw [if_pos hb]
  by_cases hp : st.published.name = Activity.CALIBRATING
  · simp [hp]
  · simp [hp]

lemma classifyConf_fst (tm : ℚ) (θ : Thresholds) :
    (classifyConf tm θ).1 = Activity.IDLE ∨ (classifyConf tm θ).1 = Activity.STANDING ∨
    (classifyConf tm θ).1 = Activity.WALKING ∨ (classifyConf tm θ).1 = Activity.RUNNING := by
  unfold classifyConf
  split_ifs <;> simp

lemma smooth_activity_real (last : Activity) (cnt : ℕ) (a : Activity) (c : ℚ)
    (ha : a = Activity.IDLE ∨ a = Activity.STANDING ∨ a = Activity.WALKING ∨
      a = Activity.RUNNING) :
    (smooth last cnt a c).activity = Activity.IDLE ∨
    (smooth last cnt a c).activity = Activity.STANDING ∨
    (smooth last cnt a c).activity = Activity.WALKING ∨
    (smooth last cnt a c).activity = Activity.RUNNING := by
  rcases ha with rfl | rfl | rfl | rfl <;> cases last <;>
    simp [smooth] <;> split_ifs <;> simp

/-- The run of the service over a list of `(Date.now(), sample)` ticks. -/
def runTicks (st : HARState) : List (ℚ × SensorData) → HARState
  | [] => st
  | t :: rest => runTicks (predictActivity st t.1 (some t.2)).1 rest

/-- Invariant of a monitored run that has accepted `n` valid samples since
a fresh start: the window holds `min n 25` samples, the published snapshot
is CALIBRATING with confidence 0.5 while `0 < n < 25`, and a real activity
label from the tick that fills the window onward. -/
def C9Inv (s : ℚ) (n : ℕ) (st : HARState) : Prop :=
  st.settings = some s ∧ st.isMonitoring = true ∧
  st.sensorDataBuffer.length = min n SENSOR_DATA_BUFFER_SIZE ∧
  (n = 0 → st.published.name ≠ Activity.CALIBRATING) ∧
  (0 < n → n < SENSOR_DATA_BUFFER_SIZE →
    st.published.name = Activity.CALIBRATING ∧ st.published.confidence = 0.5) ∧
  (SENSOR_DATA_BUFFER_SIZE ≤ n →
    st.published.name = Activity.IDLE ∨ st.published.name = Activity.STANDING ∨
    st.published.name = Activity.WALKING ∨ st.published.name = Activity.RUNNING)

lemma C9Inv_step (s : ℚ) (n : ℕ) (st : HARState) (now : ℚ) (sd : SensorData)
    (hv : sd.valid = true) (hinv : C9Inv s n st) :
    C9Inv s (n + 1) (predictActivity st now (some sd)).1 := by
  obtain ⟨hs, hm, hlen, hp0, hpc, hpf⟩ := hinv
  have hplen : (pushCapped st.sensorDataBuffer SENSOR_DATA_BUFFER_SIZE sd).length =
      min (n + 1) SENSOR_DATA_BUFFER_SIZE := by
    rw [pushCapped_length, hlen]
    simp only [SENSOR_DATA_BUFFER_SIZE]
    split_ifs <;> omega
  by_cases hfull : (pushCapped st.sensorDataBuffer SENSOR_DATA_BUFFER_SIZE sd).length <
      SENSOR_DATA_BUFFER_SIZE
  · have hn1 : n + 1 < SENSOR_DATA_BUFFER_SIZE := by
      rw [hplen] at hfull
      simp only [SENSOR_DATA_BUFFER_SIZE] at hfull ⊢
      omega
    rw [predictActivity_underfull st now sd s hv hs hm hfull]
    by_cases hp : st.published.name = Activity.CALIBRATING
    · rw [if_pos hp]
      refine ⟨hs, hm, hplen, by intro h; omega, ?_, by intro h; omega⟩
      intro _ _
      rcases Nat.eq_zero_or_pos n with hn0 | hn0
      · exact absurd hp (hp0 hn0)
      · exact ⟨hp, (hpc hn0 (by omega)).2⟩
    · rw [if_neg hp]
      exact ⟨hs, hm, hplen, by intro h; omega, fun _ _ => ⟨rfl, rfl⟩, by intro h; omega⟩
  · have hn1 : SENSOR_DATA_BUFFER_SIZE ≤ n + 1 := by
      rw [hplen] at hfull
      simp only [SENSOR_DATA_BUFFER_SIZE] at hfull ⊢
      omega
    rw [predictActivity_full st now sd s hv hs hm hfull]
    refine ⟨hs, hm, hplen, by intro h; omega, by intro h1 h2; omega, ?_⟩
    intro _
    show (tickSmooth s st sd).activity = Activity.IDLE ∨
      (tickSmooth s st sd).activity = Activity.STANDING ∨
      (tickSmooth s st sd).activity = Activity.WALKING ∨
      (tickSmooth s st sd).activity = Activity.RUNNING
    exact smooth_activity_real st.lastActivity st.activityChangeCount _ _
      (classifyConf_fst (tickMovement st sd) (adjustedThresholds s))

lemma runTicks_inv (s : ℚ) (inputs : List (ℚ × SensorData)) :
    ∀ (st : HARState) (n : ℕ), (∀ p ∈ inputs, p.2.valid = true) → C9Inv s n st →
      C9Inv s (n + inputs.length) (runTicks st inputs) := by
  induction inputs with
  | nil => intro st n _ h; simpa using h
  | cons t rest ih =>
    intro st n hv hinv
    have h1 := C9Inv_step s n st t.1 t.2 (hv t (by simp)) hinv
    have h2 := ih (predictActivity st t.1 (some t.2)).1 (n + 1)
      (fun p hp => hv p (by simp [hp])) h1
    show C9Inv s (n + (rest.length + 1)) (runTicks (predictActivity st t.1 (some t.2)).1 rest)
    have he : n + (rest.length + 1) = n + 1 + rest.length := by omega
    rw [he]
    exact h2



/-- C9: from a fresh monitored start (empty window, settings loaded), every
valid-sample tick at which fewer than 25 valid samples have been accepted
publishes CALIBRATING with confidence exactly 0.5; from the tick accepting
the 25th valid sample onward, a real activity label
(IDLE/STANDING/WALKING/RUNNING) is published instead. -/
theorem calibrating_until_window_full (s : ℚ) (st0 : HARState)
    (inputs : List (ℚ × SensorData)) (i : ℕ)
    (hb0 : st0.sensorDataBuffer = []) (hs : st0.settings = some s)
    (hm : st0.isMonitoring = true) (hp : st0.published.name ≠ Activity.CALIBRATING)
    (hv : ∀ p ∈ inputs, p.2.valid = true) (hi : i < inputs.length) :
    (i + 1 < SENSOR_DATA_BUFFER_SIZE →
      (runTicks st0 (inputs.take (i + 1))).published.name = Activity.CALIBRATING ∧
      (runTicks st0 (inputs.take (i + 1))).published.confidence = 0.5) ∧
    (SENSOR_DATA_BUFFER_SIZE ≤ i + 1 →
      (runTicks st0 (inputs.take (i + 1))).published.name = Activity.IDLE ∨
      (runTicks st0 (inputs.take (i + 1))).published.name = Activity.STANDING ∨
      (runTicks st0 (inputs.take (i + 1))).published.name = Activity.WALKING ∨
      (runTicks st0 (inputs.take (i + 1))).published.name = Activity.RUNNING) := by
  have hinv0 : C9Inv s 0 st0 :=
    ⟨hs, hm, by simp [hb0], fun _ => hp, fun h _ => absurd h (by omega),
     fun h => absurd h (by simp [SENSOR_DATA_BUFFER_SIZE] at h)⟩
  have hrun := runTicks_inv s (inputs.take (i + 1)) st0 0
    (fun p hp2 => hv p (List.mem_of_mem_take hp2)) hinv0
  have hlen : (inputs.take (i + 1)).length = i + 1 := by
    rw [List.length_take]
    omega
  rw [hlen, Nat.zero_add] at hrun
  obtain ⟨_, _, _, _, hpc, hpf⟩ := hrun
  exact ⟨fun h => hpc (by omega) h, hpf⟩

/-- A freshly started service state: empty buffers, settings loaded with
sensitivity 1, monitoring on, published snapshot IDLE. -/
def readySt : HARState :=
  { initialState with
      settings := some 1
      isMonitoring := true
      published := ⟨Activity.IDLE, 1, true, none⟩ }

/-- Three valid ticks delivered at time 0. -/
def c9inputs : List (ℚ × SensorData) := List.replicate 3 (0, zeroSample)

/-- Witness for C9: after 3 valid samples (fewer than 25) the published
state is CALIBRATING with confidence 0.5. -/
theorem calibrating_until_window_full_witness :
    readySt.sensorDataBuffer = [] ∧ readySt.settings = some 1 ∧
    readySt.isMonitoring = true ∧ readySt.published.name ≠ Activity.CALIBRATING ∧
    (2 : ℕ) < c9inputs.length ∧
    ((runTicks readySt (c9inputs.take (2 + 1))).published.name = Activity.CALIBRATING ∧
     (runTicks readySt (c9inputs.take (2 + 1))).published.confidence = 0.5) := by
  refine ⟨rfl, rfl, rfl, by simp [readySt], by norm_num [c9inputs], ?_⟩
  exact (calibrating_until_window_full 1 readySt c9inputs 2 rfl rfl rfl
    (by simp [readySt])
    (by intro p hp; have he := List.eq_of_mem_replicate hp; rw [he]; rfl)
    (by norm_num [c9inputs])).1 (by norm_num [SENSOR_DATA_BUFFER_SIZE])

end NyraHAR
